import Mathlib

/-!
Verification of the `spekt` test-lifecycle runner (`Test::test` in
`src/test.rs`).

The runner is embedded as a pure function producing an event trace plus an
exit status.  The Rust source is:

    let before = Self::before().await;
    let state = match before {
        Err(error) => return assert!(false, format!("{}", error)),
        Ok(state) => Arc::new(state),
    };
    let test_run = task(state.clone()).await;
    let after = state.after().await;
    if let Err(error) = test_run { assert!(false, format!("{}", error)); }
    if let Err(error) = after { assert!(false, format!("{}", error)); }

Modelling choices, each reflecting a concrete feature of the source:
  * `TestImpl` packages the implementor-supplied pieces of the `Test` trait:
    the `Display` rendering of `Error`, `before`, and `after`.
  * The test-body task takes the state value observed through its `Arc`
    handle and either returns an updated state (internal mutability through
    the shared handle) together with a `Result`, or panics.  `dropEarly`
    records whether the body drops its `Arc` clone before finishing.
  * The single `Arc` lineage is modelled by refcount events: `Arc::new`
    gives count 1, the `state.clone()` passed to the task gives 2, drops
    decrement, and a drop to 0 destroys the underlying state.
  * `assert!(false, msg)` both emits the single failure report and aborts
    the remainder of the function (it panics), so in the exit status a
    reported failure is terminal.
-/

namespace Spekt

/-- Observable events of one invocation of `Test::test`. -/
inductive Ev (σ : Type) where
  | beforeRun
  | reportFail (msg : String)
  | arcNew (rc : Nat)
  | arcClone (rc : Nat)
  | arcDrop (rc : Nat)
  | taskRun (arg : σ)
  | taskDone
  | taskPanicked (msg : String)
  | afterRun (arg : σ) (rc : Nat)
  | afterDone
  deriving DecidableEq, Repr

/-- How one invocation of `Test::test` terminates: normally with no
failure, by an `assert!(false, msg)` failure report, or by a panic
propagating out of the test-body task. -/
inductive RunExit where
  | pass
  | fail (msg : String)
  | panicked (msg : String)
  deriving DecidableEq, Repr

/-- The implementor-supplied pieces of the `Test` trait: the `Display`
instance of `Error`, `before`, and `after`. -/
structure TestImpl (σ ε : Type) where
  display : ε → String
  before : Except ε σ
  after : σ → Except ε Unit

/-- Outcome of running the test-body task on the state it observes through
its `Arc` handle: it panics, or it returns, possibly having dropped its
handle clone early, leaving the shared state at `finalState` and producing
`result`. -/
inductive TaskOutcome (σ ε : Type) where
  | panics (msg : String)
  | returns (dropEarly : Bool) (finalState : σ) (result : Except ε Unit)
  deriving Repr

/-- Embedding of `Test::test` (src/test.rs lines 22-44): run `before`;
on error report its rendered text and stop; otherwise wrap the state in an
`Arc`, run the task on a clone, await it, run `after` on the retained
handle, then assert on the test result (without examining the after
result) and finally on the after result. -/
def runTest {σ ε : Type} (impl : TestImpl σ ε) (task : σ → TaskOutcome σ ε) :
    List (Ev σ) × RunExit :=
  match impl.before with
  | .error e =>
      ([.beforeRun, .reportFail (impl.display e)], .fail (impl.display e))
  | .ok s0 =>
      match task s0 with
      | .panics msg =>
          ([.beforeRun, .arcNew 1, .arcClone 2, .taskRun s0, .taskPanicked msg,
            .arcDrop 1, .arcDrop 0], .panicked msg)
      | .returns dropEarly s1 res =>
          let taskEvs : List (Ev σ) :=
            if dropEarly then [.taskRun s0, .arcDrop 1, .taskDone]
            else [.taskRun s0, .taskDone, .arcDrop 1]
          let core : List (Ev σ) :=
            [.beforeRun, .arcNew 1, .arcClone 2] ++ taskEvs ++
              [.afterRun s1 1, .afterDone]
          match res with
          | .error e =>
              (core ++ [.reportFail (impl.display e), .arcDrop 0],
               .fail (impl.display e))
          | .ok _ =>
              match impl.after s1 with
              | .error e2 =>
                  (core ++ [.reportFail (impl.display e2), .arcDrop 0],
                   .fail (impl.display e2))
              | .ok _ => (core ++ [.arcDrop 0], .pass)

/-- The failure message carried by a `reportFail` event, if any. -/
def reportMsg? {σ : Type} : Ev σ → Option String
  | .reportFail m => some m
  | _ => none

/-- All failure messages reported during a trace, in order. -/
def reportMsgs {σ : Type} (tr : List (Ev σ)) : List String :=
  tr.filterMap reportMsg?

/-- The argument and refcount of an `afterRun` event, if any. -/
def afterArg? {σ : Type} : Ev σ → Option (σ × Nat)
  | .afterRun s rc => some (s, rc)
  | _ => none

/-- The state values (with refcounts) on which `after` was invoked. -/
def afterArgs {σ : Type} (tr : List (Ev σ)) : List (σ × Nat) :=
  tr.filterMap afterArg?

/-- The argument of a `taskRun` event, if any. -/
def taskArg? {σ : Type} : Ev σ → Option σ
  | .taskRun s => some s
  | _ => none

/-- The state values handed to the test-body task. -/
def taskArgs {σ : Type} (tr : List (Ev σ)) : List σ :=
  tr.filterMap taskArg?

/-- Whether an event is an invocation of `after`. -/
def isAfterRun {σ : Type} : Ev σ → Bool
  | .afterRun _ _ => true
  | _ => false

/-- Whether an event is an invocation of the test-body task. -/
def isTaskRun {σ : Type} : Ev σ → Bool
  | .taskRun _ => true
  | _ => false

/-- Whether an event is the completion of the test-body task. -/
def isTaskDone {σ : Type} : Ev σ → Bool
  | .taskDone => true
  | _ => false

/-- `true` iff `after` was invoked at some point of the trace. -/
def hasAfterRun {σ : Type} (tr : List (Ev σ)) : Bool := tr.any isAfterRun

/-- `true` iff the test-body task was invoked at some point of the trace. -/
def hasTaskRun {σ : Type} (tr : List (Ev σ)) : Bool := tr.any isTaskRun

/-- How many times `after` was invoked in a trace. -/
def afterCount {σ : Type} (tr : List (Ev σ)) : Nat := tr.countP isAfterRun

/-- How many times the test-body task completed in a trace. -/
def taskDoneCount {σ : Type} (tr : List (Ev σ)) : Nat := tr.countP isTaskDone

/-- Scans the trace left to right: `true` iff some `afterRun` event occurs
strictly before the first completion of the test body. -/
def afterBeforeTaskDone {σ : Type} : List (Ev σ) → Bool
  | [] => false
  | .taskDone :: _ => false
  | .afterRun _ _ :: _ => true
  | _ :: rest => afterBeforeTaskDone rest

/-- Scans the trace left to right: `true` iff the shared state is destroyed
(refcount drops to 0) strictly before `after` finishes. -/
def destroyBeforeAfterDone {σ : Type} : List (Ev σ) → Bool
  | [] => false
  | .afterDone :: _ => false
  | .arcDrop 0 :: _ => true
  | _ :: rest => destroyBeforeAfterDone rest

/-- `true` iff `before` produced a state rather than an error. -/
def beforeSucceeded {σ ε : Type} (impl : TestImpl σ ε) : Bool :=
  match impl.before with
  | .ok _ => true
  | .error _ => false

/-! Concrete fixtures used to instantiate the theorems below. -/

/-- A concrete implementor: state is a counter starting at 0; `after`
succeeds exactly when the counter was mutated to 1. -/
def counterImpl : TestImpl Nat String :=
  ⟨id, Except.ok 0, fun n => if n = 1 then Except.ok () else Except.error "counter mismatch"⟩

/-- An implementor whose `before` fails. -/
def failBeforeImpl : TestImpl Nat String :=
  ⟨id, Except.error "connection refused", fun _ => Except.ok ()⟩

/-- An implementor whose `after` always fails. -/
def failAfterImpl : TestImpl Nat String :=
  ⟨id, Except.ok 0, fun _ => Except.error "teardown failed"⟩

/-- A test body that increments the shared counter and succeeds. -/
def incTask : Nat → TaskOutcome Nat String :=
  fun n => TaskOutcome.returns false (n + 1) (Except.ok ())

/-- A test body that mutates the state to 5, drops its handle clone early,
and fails. -/
def failTask : Nat → TaskOutcome Nat String :=
  fun _ => TaskOutcome.returns true 5 (Except.error "boom")

/-- A test body that panics instead of returning a `Result`. -/
def abortTask : Nat → TaskOutcome Nat String :=
  fun _ => TaskOutcome.panics "kaboom"

/-- C2: if `before` returns an error, the trace is exactly the `before` run
followed by a single failure report whose text is the rendered before-error,
the exit is that failure, and neither the test-body task nor `after` is
ever invoked. -/
theorem before_failure_short_circuit {σ ε : Type} (impl : TestImpl σ ε)
    (task : σ → TaskOutcome σ ε) (e : ε) (hb : impl.before = Except.error e) :
    (runTest impl task).1 = [Ev.beforeRun, Ev.reportFail (impl.display e)] ∧
    (runTest impl task).2 = RunExit.fail (impl.display e) ∧
    hasTaskRun (runTest impl task).1 = false ∧
    hasAfterRun (runTest impl task).1 = false := by
  simp [runTest, hb, hasTaskRun, hasAfterRun, isTaskRun, isAfterRun]

/-- Witness for C2 at a concrete implementor whose `before` fails with
"connection refused". -/
theorem before_failure_short_circuit_witness :
    (runTest failBeforeImpl incTask).1 =
      [Ev.beforeRun, Ev.reportFail "connection refused"] ∧
    (runTest failBeforeImpl incTask).2 = RunExit.fail "connection refused" ∧
    hasTaskRun (runTest failBeforeImpl incTask).1 = false ∧
    hasAfterRun (runTest failBeforeImpl incTask).1 = false :=
  before_failure_short_circuit failBeforeImpl incTask "connection refused" rfl

/-- C4: if `before`, the test body, and `after` all succeed, the invocation
exits normally and no failure report is emitted. -/
theorem happy_path_no_failure {σ ε : Type} (impl : TestImpl σ ε)
    (task : σ → TaskOutcome σ ε) (s0 : σ) (d : Bool) (s1 : σ)
    (hb : impl.before = Except.ok s0)
    (ht : task s0 = TaskOutcome.returns d s1 (Except.ok ()))
    (ha : impl.after s1 = Except.ok ()) :
    (runTest impl task).2 = RunExit.pass ∧
    reportMsgs (runTest impl task).1 = [] := by
  cases d <;> simp [runTest, hb, ht, ha, reportMsgs, reportMsg?]

/-- Witness for C4: the counter test where `before` yields 0, the body
mutates it to 1 and succeeds, and `after` accepts the mutated counter. -/
theorem happy_path_no_failure_witness :
    (runTest counterImpl incTask).2 = RunExit.pass ∧
    reportMsgs (runTest counterImpl incTask).1 = [] :=
  happy_path_no_failure counterImpl incTask 0 false 1 rfl rfl rfl

/-- C5: if `before` and the test body succeed but `after` fails, the
invocation fails with exactly the rendered after-error as its single
report. -/
theorem after_failure_surfaces_when_test_passes {σ ε : Type}
    (impl : TestImpl σ ε) (task : σ → TaskOutcome σ ε) (s0 : σ) (d : Bool)
    (s1 : σ) (e2 : ε)
    (hb : impl.before = Except.ok s0)
    (ht : task s0 = TaskOutcome.returns d s1 (Except.ok ()))
    (ha : impl.after s1 = Except.error e2) :
    (runTest impl task).2 = RunExit.fail (impl.display e2) ∧
    reportMsgs (runTest impl task).1 = [impl.display e2] := by
  cases d <;> simp [runTest, hb, ht, ha, reportMsgs, reportMsg?]

/-- Witness for C5 at an implementor whose `after` always fails. -/
theorem after_failure_surfaces_when_test_passes_witness :
    (runTest failAfterImpl incTask).2 = RunExit.fail "teardown failed" ∧
    reportMsgs (runTest failAfterImpl incTask).1 = ["teardown failed"] :=
  after_failure_surfaces_when_test_passes failAfterImpl incTask 0 false 1
    "teardown failed" rfl rfl rfl

/-- C1: if `before` succeeds, the test body fails, and `after` also fails,
the invocation fails with exactly the rendered test-body error as its single
report, and the after result is never examined: the whole run is unchanged
under any replacement of the `after` implementation. -/
theorem test_failure_masks_after_failure {σ ε : Type} (impl : TestImpl σ ε)
    (task : σ → TaskOutcome σ ε) (s0 : σ) (d : Bool) (s1 : σ) (e : ε) (e2 : ε)
    (hb : impl.before = Except.ok s0)
    (ht : task s0 = TaskOutcome.returns d s1 (Except.error e))
    (ha : impl.after s1 = Except.error e2) :
    (runTest impl task).2 = RunExit.fail (impl.display e) ∧
    reportMsgs (runTest impl task).1 = [impl.display e] ∧
    ∀ aft2 : σ → Except ε Unit,
      runTest (TestImpl.mk impl.display impl.before aft2) task =
        runTest impl task := by
  refine ⟨?_, ?_, ?_⟩ <;>
    cases d <;> simp [runTest, hb, ht, reportMsgs, reportMsg?]

/-- Witness for C1: the body fails with "boom" while `after` fails with
"teardown failed"; only "boom" is reported. -/
theorem test_failure_masks_after_failure_witness :
    (runTest failAfterImpl failTask).2 = RunExit.fail "boom" ∧
    reportMsgs (runTest failAfterImpl failTask).1 = ["boom"] ∧
    ∀ aft2 : Nat → Except String Unit,
      runTest (TestImpl.mk failAfterImpl.display failAfterImpl.before aft2)
          failTask =
        runTest failAfterImpl failTask :=
  test_failure_masks_after_failure failAfterImpl failTask 0 true 5 "boom"
    "teardown failed" rfl rfl rfl

/-- C10: if `before` succeeds but the test body panics instead of returning
a `Result`, the panic propagates out of the runner as the invocation's
abrupt termination and `after` is never invoked. -/
theorem task_panic_skips_after {σ ε : Type} (impl : TestImpl σ ε)
    (task : σ → TaskOutcome σ ε) (s0 : σ) (msg : String)
    (hb : impl.before = Except.ok s0)
    (ht : task s0 = TaskOutcome.panics msg) :
    (runTest impl task).2 = RunExit.panicked msg ∧
    hasAfterRun (runTest impl task).1 = false := by
  simp [runTest, hb, ht, hasAfterRun, isAfterRun]

/-- Witness for C10 at a body that panics with "kaboom". -/
theorem task_panic_skips_after_witness :
    (runTest counterImpl abortTask).2 = RunExit.panicked "kaboom" ∧
    hasAfterRun (runTest counterImpl abortTask).1 = false :=
  task_panic_skips_after counterImpl abortTask 0 "kaboom" rfl rfl

/-- C3: provided the test body returns (does not panic), `after` is invoked
iff `before` succeeded, and in that case it is invoked exactly once — in
particular also when the body returned an error. -/
theorem after_iff_before_succeeded {σ ε : Type} (impl : TestImpl σ ε)
    (task : σ → TaskOutcome σ ε)
    (hnp : ∀ s msg, task s ≠ TaskOutcome.panics msg) :
    (hasAfterRun (runTest impl task).1 = true ↔
      beforeSucceeded impl = true) ∧
    (beforeSucceeded impl = true → afterCount (runTest impl task).1 = 1) := by
  rcases hb : impl.before with e | s0
  · simp [runTest, hb, beforeSucceeded, hasAfterRun, isAfterRun, afterCount]
  · rcases ht : task s0 with msg | ⟨d, s1, r⟩
    · exact absurd ht (hnp s0 msg)
    · cases d <;> rcases r with e | u <;>
        rcases ha : impl.after s1 with e2 | u2 <;>
        simp [runTest, hb, ht, ha, beforeSucceeded, hasAfterRun, isAfterRun,
          afterCount, List.countP_cons]

/-- Witness for C3: the body fails with "boom", yet `after` runs exactly
once. -/
theorem after_iff_before_succeeded_witness :
    (hasAfterRun (runTest counterImpl failTask).1 = true ↔
      beforeSucceeded counterImpl = true) ∧
    (beforeSucceeded counterImpl = true →
      afterCount (runTest counterImpl failTask).1 = 1) :=
  after_iff_before_succeeded counterImpl failTask
    (by intro s msg; simp [failTask])

/-- C6: in every invocation, no `afterRun` event ever occurs before the
test body's completion event, and the body completes at most once — the
two phases are strictly sequenced with no overlap. -/
theorem after_begins_only_when_task_resolved {σ ε : Type}
    (impl : TestImpl σ ε) (task : σ → TaskOutcome σ ε) :
    afterBeforeTaskDone (runTest impl task).1 = false ∧
    taskDoneCount (runTest impl task).1 ≤ 1 := by
  rcases hb : impl.before with e | s0
  · simp [runTest, hb, afterBeforeTaskDone, taskDoneCount, isTaskDone,
      List.countP_cons]
  · rcases ht : task s0 with msg | ⟨d, s1, r⟩
    · simp [runTest, hb, ht, afterBeforeTaskDone, taskDoneCount, isTaskDone,
        List.countP_cons]
    · cases d <;> rcases r with e | u <;>
        rcases ha : impl.after s1 with e2 | u2 <;>
        simp [runTest, hb, ht, ha, afterBeforeTaskDone, taskDoneCount,
          isTaskDone, List.countP_cons]

/-- C7: when `before` succeeds and the body returns, the body is invoked
exactly once, receiving the state `before` produced through the shared
handle, and `after` is invoked exactly once on the very state value the
body left behind — mutations made by the body are visible to `after`. -/
theorem shared_state_single_lineage {σ ε : Type} (impl : TestImpl σ ε)
    (task : σ → TaskOutcome σ ε) (s0 : σ) (d : Bool) (s1 : σ)
    (r : Except ε Unit)
    (hb : impl.before = Except.ok s0)
    (ht : task s0 = TaskOutcome.returns d s1 r) :
    taskArgs (runTest impl task).1 = [s0] ∧
    afterArgs (runTest impl task).1 = [(s1, 1)] := by
  cases d <;> rcases r with e | u <;>
    rcases ha : impl.after s1 with e2 | u2 <;>
    simp [runTest, hb, ht, ha, taskArgs, afterArgs, taskArg?, afterArg?]

/-- Witness for C7: the body receives counter 0 and mutates it to 1;
`after` observes 1. -/
theorem shared_state_single_lineage_witness :
    taskArgs (runTest counterImpl incTask).1 = [0] ∧
    afterArgs (runTest counterImpl incTask).1 = [(1, 1)] :=
  shared_state_single_lineage counterImpl incTask 0 false 1 (Except.ok ())
    rfl rfl

/-- The failure reports matching an exit status: exactly one for a
reported failure, none otherwise. -/
def reportOfExit : RunExit → List String
  | .fail m => [m]
  | _ => []

/-- C8: every invocation emits at most one failure report, and the reports
are exactly those of the exit status — one when a phase error was chosen,
none otherwise. -/
theorem at_most_one_failure_report {σ ε : Type} (impl : TestImpl σ ε)
    (task : σ → TaskOutcome σ ε) :
    (reportMsgs (runTest impl task).1).length ≤ 1 ∧
    reportMsgs (runTest impl task).1 = reportOfExit (runTest impl task).2 := by
  rcases hb : impl.before with e | s0
  · simp [runTest, hb, reportMsgs, reportMsg?, reportOfExit]
  · rcases ht : task s0 with msg | ⟨d, s1, r⟩
    · simp [runTest, hb, ht, reportMsgs, reportMsg?, reportOfExit]
    · cases d <;> rcases r with e | u <;>
        rcases ha : impl.after s1 with e2 | u2 <;>
        simp [runTest, hb, ht, ha, reportMsgs, reportMsg?, reportOfExit]

/-- C9: when `before` succeeds and the body returns, the shared state is
never destroyed (refcount never reaches 0) before `after` completes, and
every invocation of `after` happens at a strictly positive refcount — the
runner's retained handle keeps the state alive, even when the body dropped
its own clone early. -/
theorem state_alive_until_after_done {σ ε : Type} (impl : TestImpl σ ε)
    (task : σ → TaskOutcome σ ε) (s0 : σ) (d : Bool) (s1 : σ)
    (r : Except ε Unit)
    (hb : impl.before = Except.ok s0)
    (ht : task s0 = TaskOutcome.returns d s1 r) :
    destroyBeforeAfterDone (runTest impl task).1 = false ∧
    ∀ p ∈ afterArgs (runTest impl task).1, 1 ≤ p.2 := by
  cases d <;> rcases r with e | u <;>
    rcases ha : impl.after s1 with e2 | u2 <;>
    simp [runTest, hb, ht, ha, destroyBeforeAfterDone, afterArgs, afterArg?]

/-- Witness for C9 with a body that drops its handle clone early and then
fails: the state survives until `after` is done. -/
theorem state_alive_until_after_done_witness :
    destroyBeforeAfterDone (runTest counterImpl failTask).1 = false ∧
    ∀ p ∈ afterArgs (runTest counterImpl failTask).1, 1 ≤ p.2 :=
  state_alive_until_after_done counterImpl failTask 0 true 5
    (Except.error "boom") rfl rfl

end Spekt
